import Mathlib

/-!
Verification of the PawfectBite client's CRUD state logic.

Shallow embedding of:
- `validateForm` / `handleSubmit` from
  src/client/src/features/pets/components/PetFormDialog.tsx
- `fetchPets`, `handleFormSubmit`, `handleDeleteConfirm` from
  src/client/src/pages/MyPetsPage.tsx
- `DeleteConfirmDialog.handleConfirm` from
  src/client/src/features/pets/components/DeleteConfirmDialog.tsx

Modelling conventions: TypeScript numbers for age/weight are modelled as ℚ
(only order comparisons occur); thrown JavaScript values are modelled by
`JsError` (`isError` mirrors `error instanceof Error`); a possibly-absent
string field is modelled as a `String` where `""` stands for the falsy
values (`""`/`undefined`), which is behaviourally equivalent in every
expression the code applies to such fields (`x || y`, `!x`, and the
three-way check `x === 'None' || x === '' || !x`). Asynchronous API calls
are modelled by passing their outcome (`Except JsError α`) as an argument;
React state setters become explicit state passing.
-/

namespace PawfectBite

/-- The `Pet` record shape (src/client/src/shared/types/pet.types, as used by
the components); `healthStatus` is the derived UI field. -/
structure Pet where
  id : String
  name : String
  type : String
  breed : String
  age : ℚ
  weight : ℚ
  activityLevel : String
  healthIssues : String
  imageUrl : String
  isDesexed : Bool
  healthStatus : String
  deriving Repr, DecidableEq

/-- The `PetFormData` shape collected by PetFormDialog. -/
structure PetFormData where
  name : String
  type : String
  breed : String
  age : ℚ
  weight : ℚ
  activityLevel : String
  healthIssues : String
  imageUrl : String
  isDesexed : Bool
  deriving Repr, DecidableEq

/-- A thrown JavaScript value: `isError` mirrors `error instanceof Error`. -/
structure JsError where
  isError : Bool
  message : String
  deriving Repr, DecidableEq

/-- `e instanceof Error ? e.message : fallback`, the pattern used in every
catch block of the embedded code. -/
def errMessage (e : JsError) (fallback : String) : String :=
  if e.isError then e.message else fallback

/-- JavaScript `a || b` on strings (`""` is the only falsy string). -/
def jsOr (a b : String) : String :=
  if a = "" then b else a

/-- JavaScript `s.trim()`: the string with whitespace stripped from both
ends, written by structural recursion over the character list so that it
evaluates by kernel reduction (`String.trim` computes the same result but is
defined by byte-position recursion the kernel cannot unfold). -/
def jsTrim (s : String) : String :=
  ⟨((s.data.dropWhile Char.isWhitespace).reverse.dropWhile Char.isWhitespace).reverse⟩

/-- Snackbar state of MyPetsPage (field `open` renamed `isOpen`: `open` is a
Lean keyword). -/
structure Snackbar where
  isOpen : Bool
  message : String
  severity : String
  deriving Repr, DecidableEq

/-- The state of MyPetsPage that the embedded handlers touch. -/
structure PageState where
  pets : List Pet
  loading : Bool
  error : Option String
  snackbar : Snackbar
  formLoading : Bool
  deleteLoading : Bool
  deriving Repr, DecidableEq

/-- The `useState` initial values of MyPetsPage. -/
def initialState : PageState :=
  { pets := []
    loading := true
    error := none
    snackbar := { isOpen := false, message := "", severity := "success" }
    formLoading := false
    deleteLoading := false }

/-- The fixed `mockPets` demo data of MyPetsPage (lines 18-58). -/
def mockPets : List Pet :=
  [ { id := "1", name := "Buddy", type := "Dog", breed := "Golden Retriever",
      age := 3, weight := 25, activityLevel := "High", healthIssues := "None",
      imageUrl := "/pets/dog1.jpg", isDesexed := true, healthStatus := "healthy" },
    { id := "2", name := "Whiskers", type := "Cat", breed := "Persian",
      age := 2, weight := 4, activityLevel := "Low", healthIssues := "Allergies",
      imageUrl := "/pets/cat1.jpg", isDesexed := true, healthStatus := "needs-attention" },
    { id := "3", name := "Max", type := "Dog", breed := "German Shepherd",
      age := 5, weight := 30, activityLevel := "High", healthIssues := "None",
      imageUrl := "/pets/dog2.jpg", isDesexed := true, healthStatus := "healthy" } ]

/-- The health-status computation `(healthIssues === 'None' || healthIssues
=== '') ? 'healthy' : 'needs-attention'` applied in `fetchPets` (lines
99-104). -/
def computeHealthStatus (healthIssues : String) : String :=
  if healthIssues = "None" ∨ healthIssues = "" then "healthy" else "needs-attention"

/-- `fetchPets` (MyPetsPage lines 90-130): the API outcome is passed in;
`isDevelopment` mirrors `process.env.NODE_ENV === 'development'`. -/
def fetchPets (st : PageState) (isDevelopment : Bool)
    (apiResult : Except JsError (List Pet)) : PageState :=
  let st := { st with loading := true, error := none }
  match apiResult with
  | .ok fetchedPets =>
      let petsWithHealthStatus := fetchedPets.map fun pet =>
        { pet with healthStatus := computeHealthStatus pet.healthIssues }
      { st with pets := petsWithHealthStatus, loading := false }
  | .error apiError =>
      if isDevelopment then
        { st with
            pets := mockPets
            snackbar := { isOpen := true, message := "Using demo data - API not connected",
                          severity := "info" }
            loading := false }
      else
        { st with
            error := some ("Unable to load your pets: " ++
                           errMessage apiError "Failed to load pets")
            loading := false }

/-- The error mapping built by `validateForm` (PetFormDialog lines 113-142),
as the association list of keys added in source order. -/
def validateFormErrors (formData : PetFormData) : List (String × String) :=
  (if jsTrim formData.name = "" then [("name", "Pet name is required")] else []) ++
  (if formData.type = "" then [("type", "Pet type is required")] else []) ++
  (if jsTrim formData.breed = "" then [("breed", "Breed is required")] else []) ++
  (if formData.age ≤ 0 then [("age", "Age must be greater than 0")] else []) ++
  (if formData.weight ≤ 0 then [("weight", "Weight must be greater than 0")] else []) ++
  (if formData.activityLevel = "" then [("activityLevel", "Activity level is required")] else [])

/-- `validateForm`'s boolean result: `Object.keys(newErrors).length === 0`. -/
def validateForm (formData : PetFormData) : Bool :=
  (validateFormErrors formData).length = 0

/-- Outcome of one run of PetFormDialog's `handleSubmit`. -/
structure SubmitResult where
  onSubmitCalled : Bool
  submitError : String
  onCloseCalled : Bool
  deriving Repr, DecidableEq

/-- `handleSubmit` (PetFormDialog lines 145-157). `prevSubmitError` is the
`submitError` state before the run; `onSubmit`'s outcome is passed in.
`setSubmitError('')` runs before `onSubmit` and is overwritten in the catch
branch, so the net `submitError` is as written here. -/
def handleSubmit (formData : PetFormData) (prevSubmitError : String)
    (onSubmit : Except JsError Unit) : SubmitResult :=
  if !validateForm formData then
    { onSubmitCalled := false, submitError := prevSubmitError, onCloseCalled := false }
  else
    match onSubmit with
    | .ok _ =>
        { onSubmitCalled := true, submitError := "", onCloseCalled := true }
    | .error e =>
        { onSubmitCalled := true, submitError := errMessage e "An error occurred",
          onCloseCalled := false }

/-- The merged record `{...editingPet, ...updatedPet, ...formData, id:
editingPet.id}` built in `handleFormSubmit`'s update branch (MyPetsPage lines
173-178): `formData` supplies every field it has, `updatedPet` the remaining
`healthStatus`, and the id is forced back to `editingPet.id`. -/
def mergeUpdatedPet (editingPet updatedPet : Pet) (formData : PetFormData) : Pet :=
  { id := editingPet.id
    name := formData.name
    type := formData.type
    breed := formData.breed
    age := formData.age
    weight := formData.weight
    activityLevel := formData.activityLevel
    healthIssues := formData.healthIssues
    imageUrl := formData.imageUrl
    isDesexed := formData.isDesexed
    healthStatus := updatedPet.healthStatus }

/-- The `newPet` built in `handleFormSubmit`'s create branch (MyPetsPage lines
197-204): `healthIssues`/`imageUrl` are backfilled with `||`-chains, while
`healthStatus` is computed from `createdPet.healthIssues` alone (the
three-way falsy check collapses to `createdPet.healthIssues ∈ {"None", ""}`
in the string model). -/
def buildNewPet (createdPet : Pet) (formData : PetFormData) : Pet :=
  { createdPet with
      healthIssues := jsOr createdPet.healthIssues (jsOr formData.healthIssues "None")
      imageUrl := jsOr createdPet.imageUrl (jsOr formData.imageUrl "")
      healthStatus := computeHealthStatus createdPet.healthIssues }

/-- `handleFormSubmit` (MyPetsPage lines 164-229). `editingPet` is the
`editingPet` state; `apiResult` is the outcome of `apiService.updatePet`
(edit mode) or `apiService.createPet` (create mode). Returns the new state
and the re-thrown error (`throw error` at line 225), `none` when nothing is
thrown. `formLoading` is set in the try and reset in the finally. -/
def handleFormSubmit (st : PageState) (editingPet : Option Pet)
    (formData : PetFormData) (apiResult : Except JsError Pet) :
    PageState × Option JsError :=
  match editingPet with
  | some ep =>
      match apiResult with
      | .ok updatedPet =>
          let completeUpdatedPet := mergeUpdatedPet ep updatedPet formData
          ({ st with
               pets := st.pets.map fun pet =>
                 if pet.id = ep.id then completeUpdatedPet else pet
               snackbar := { isOpen := true, message := "Pet updated successfully! 🎉",
                             severity := "success" }
               formLoading := false }, none)
      | .error e =>
          ({ st with
               snackbar := { isOpen := true,
                             message := "Failed to update pet: " ++
                                        errMessage e "Operation failed",
                             severity := "error" }
               formLoading := false }, some e)
  | none =>
      match apiResult with
      | .ok createdPet =>
          let newPet := buildNewPet createdPet formData
          ({ st with
               pets := st.pets ++ [newPet]
               snackbar := { isOpen := true,
                             message := formData.name ++ " added successfully! 🐾",
                             severity := "success" }
               formLoading := false }, none)
      | .error e =>
          ({ st with
               snackbar := { isOpen := true,
                             message := "Failed to create pet: " ++
                                        errMessage e "Operation failed",
                             severity := "error" }
               formLoading := false }, some e)

/-- Outcome of one run of MyPetsPage's `handleDeleteConfirm`. -/
structure DeleteResult where
  state : PageState
  thrown : Option JsError
  apiCalled : Bool
  deriving Repr, DecidableEq

/-- `handleDeleteConfirm` (MyPetsPage lines 234-267). With a null
`deletingPet` it returns before touching any state or the API; otherwise
`apiService.deletePet`'s outcome is `apiResult`, the list is filtered only on
success, and a failure is re-thrown (line 263). `deleteLoading` is set in the
try and reset in the finally. -/
def handleDeleteConfirm (st : PageState) (deletingPet : Option Pet)
    (apiResult : Except JsError Unit) : DeleteResult :=
  match deletingPet with
  | none => { state := st, thrown := none, apiCalled := false }
  | some dp =>
      match apiResult with
      | .ok _ =>
          { state :=
              { st with
                  pets := st.pets.filter fun pet => pet.id ≠ dp.id
                  snackbar := { isOpen := true, message := dp.name ++ " has been removed",
                                severity := "success" }
                  deleteLoading := false }
            thrown := none
            apiCalled := true }
      | .error e =>
          { state :=
              { st with
                  snackbar := { isOpen := true,
                                message := "Failed to delete " ++ dp.name ++ ": " ++
                                           errMessage e "Delete failed",
                                severity := "error" }
                  deleteLoading := false }
            thrown := some e
            apiCalled := true }

/-- `DeleteConfirmDialog.handleConfirm` (DeleteConfirmDialog lines 48-56):
awaits `onConfirm()`; on success it calls `onClose`, a thrown error is caught
(logged only) and `onClose` is not called. Returns whether `onClose` ran. -/
def handleConfirm (onConfirm : Except JsError Unit) : Bool :=
  match onConfirm with
  | .ok _ => true
  | .error _ => false

/-- The outcome `handleDeleteConfirm` presents to its awaiter: the re-thrown
error when there is one, otherwise normal resolution. -/
def deleteConfirmOutcome (d : DeleteResult) : Except JsError Unit :=
  match d.thrown with
  | some e => .error e
  | none => .ok ()

/-- User events on DeleteConfirmDialog: the confirm button (wired to
`handleConfirm`), the cancel button and the dialog-close affordances (both
wired to `onClose` only). -/
inductive DialogEvent where
  | confirmClick
  | cancelClick
  | dialogClose
  deriving Repr, DecidableEq

/-- Outcome of one DeleteConfirmDialog event as wired in MyPetsPage. -/
structure DialogStepResult where
  state : PageState
  deleteApiCalled : Bool
  onCloseCalled : Bool
  deriving Repr, DecidableEq

/-- One DeleteConfirmDialog event, composed with MyPetsPage's wiring
(`onConfirm := handleDeleteConfirm`, lines 498-504): only the confirm button
reaches the delete operation; cancel/close merely close the dialog. -/
def deleteDialogStep (st : PageState) (deletingPet : Option Pet)
    (ev : DialogEvent) (apiResult : Except JsError Unit) : DialogStepResult :=
  match ev with
  | .confirmClick =>
      let d := handleDeleteConfirm st deletingPet apiResult
      { state := d.state
        deleteApiCalled := d.apiCalled
        onCloseCalled := handleConfirm (deleteConfirmOutcome d) }
  | .cancelClick =>
      { state := st, deleteApiCalled := false, onCloseCalled := true }
  | .dialogClose =>
      { state := st, deleteApiCalled := false, onCloseCalled := true }

/-- Sample valid form data (the spec §8 example record). -/
def sampleForm : PetFormData :=
  { name := "Rex", type := "dog", breed := "Lab", age := 2, weight := 20,
    activityLevel := "high", healthIssues := "None", imageUrl := "", isDesexed := false }

/-- A sample pet record used to instantiate concrete scenarios. -/
def buddy : Pet :=
  { id := "1", name := "Buddy", type := "Dog", breed := "Golden Retriever",
    age := 3, weight := 25, activityLevel := "High", healthIssues := "None",
    imageUrl := "/pets/dog1.jpg", isDesexed := true, healthStatus := "healthy" }

/-- A concrete thrown `Error` with a message. -/
def sampleError : JsError := { isError := true, message := "boom" }

theorem ne_empty_left_append (a b : String) (h : a ≠ "") : a ++ b ≠ "" := by
  intro hab
  apply h
  have hdata : a.data ++ b.data = [] := by
    have h2 := congrArg String.data hab
    simpa [String.data_append] using h2
  have ha : a.data = [] := (List.append_eq_nil.mp hdata).1
  apply String.ext
  simpa using ha

theorem validateFormErrors_lookup (fd : PetFormData) :
    (((validateFormErrors fd).lookup "name").isSome ↔ jsTrim fd.name = "") ∧
    (((validateFormErrors fd).lookup "type").isSome ↔ fd.type = "") ∧
    (((validateFormErrors fd).lookup "breed").isSome ↔ jsTrim fd.breed = "") ∧
    (((validateFormErrors fd).lookup "age").isSome ↔ fd.age ≤ 0) ∧
    (((validateFormErrors fd).lookup "weight").isSome ↔ fd.weight ≤ 0) ∧
    (((validateFormErrors fd).lookup "activityLevel").isSome ↔ fd.activityLevel = "") := by
  unfold validateFormErrors
  split_ifs <;> simp_all [List.lookup]

/-- C1: a candidate record with an empty required field (name, type, breed,
activity level) or a non-positive age or weight makes `validateForm` produce
an error message keyed to that field, and `handleSubmit` returns without
calling `onSubmit`. -/
theorem C1_invalid_field_blocks_submission (fd : PetFormData)
    (prevSubmitError : String) (onSubmit : Except JsError Unit) (field : String)
    (h : (field = "name" ∧ fd.name = "") ∨ (field = "type" ∧ fd.type = "") ∨
         (field = "breed" ∧ fd.breed = "") ∨
         (field = "activityLevel" ∧ fd.activityLevel = "") ∨
         (field = "age" ∧ fd.age ≤ 0) ∨ (field = "weight" ∧ fd.weight ≤ 0)) :
    ((validateFormErrors fd).lookup field).isSome = true ∧
    (handleSubmit fd prevSubmitError onSubmit).onSubmitCalled = false := by
  have htrim : jsTrim "" = "" := by decide
  have hlook := validateFormErrors_lookup fd
  have hkey : ((validateFormErrors fd).lookup field).isSome = true := by
    rcases h with ⟨hf, h⟩ | ⟨hf, h⟩ | ⟨hf, h⟩ | ⟨hf, h⟩ | ⟨hf, h⟩ | ⟨hf, h⟩ <;> subst hf
    · exact hlook.1.mpr (by rw [h]; exact htrim)
    · exact hlook.2.1.mpr h
    · exact hlook.2.2.1.mpr (by rw [h]; exact htrim)
    · exact hlook.2.2.2.2.2.mpr h
    · exact hlook.2.2.2.1.mpr h
    · exact hlook.2.2.2.2.1.mpr h
  have hne : validateFormErrors fd ≠ [] := by
    intro hnil
    rw [hnil] at hkey
    simp [List.lookup] at hkey
  exact ⟨hkey, by simp [handleSubmit, validateForm, List.length_eq_zero, hne]⟩

theorem C1_witness :
    (((validateFormErrors (PetFormData.mk "" "dog" "Lab" 2 20 "high" "None" "" false)).lookup
        "name").isSome = true) ∧
    (handleSubmit (PetFormData.mk "" "dog" "Lab" 2 20 "high" "None" "" false) ""
        (Except.ok ())).onSubmitCalled = false :=
  C1_invalid_field_blocks_submission _ "" (Except.ok ()) "name" (Or.inl ⟨rfl, rfl⟩)

/-- C6 counterexample: a whitespace-only pet type is empty after trimming,
yet `validateForm` accepts the record (`type` and `activityLevel` are checked
without trimming). -/
theorem C6_counterexample :
    jsTrim (PetFormData.mk "Rex" " " "Lab" 2 20 "high" "None" "" false).type = "" ∧
    validateForm (PetFormData.mk "Rex" " " "Lab" 2 20 "high" "None" "" false) = true := by
  constructor
  · decide
  · decide

/-- C6 (amended): name and breed are invalid exactly when empty after
trimming; type and activity level are invalid exactly when they are the
empty string (whitespace-only values are accepted); age and weight are
invalid exactly when not strictly positive; `onSubmit` is reached exactly
when the error mapping is empty. -/
theorem C6_validation_characterization (fd : PetFormData)
    (prevSubmitError : String) (onSubmit : Except JsError Unit) :
    (((validateFormErrors fd).lookup "name").isSome ↔ jsTrim fd.name = "") ∧
    (((validateFormErrors fd).lookup "breed").isSome ↔ jsTrim fd.breed = "") ∧
    (((validateFormErrors fd).lookup "type").isSome ↔ fd.type = "") ∧
    (((validateFormErrors fd).lookup "activityLevel").isSome ↔ fd.activityLevel = "") ∧
    (((validateFormErrors fd).lookup "age").isSome ↔ fd.age ≤ 0) ∧
    (((validateFormErrors fd).lookup "weight").isSome ↔ fd.weight ≤ 0) ∧
    ((handleSubmit fd prevSubmitError onSubmit).onSubmitCalled = true ↔
      validateFormErrors fd = []) := by
  have hlook := validateFormErrors_lookup fd
  refine ⟨hlook.1, hlook.2.2.1, hlook.2.1, hlook.2.2.2.2.2, hlook.2.2.2.1,
    hlook.2.2.2.2.1, ?_⟩
  by_cases hnil : validateFormErrors fd = []
  · cases onSubmit <;> simp [handleSubmit, validateForm, hnil]
  · simp [handleSubmit, validateForm, List.length_eq_zero, hnil]

theorem C6_witness :
    (((validateFormErrors sampleForm).lookup "name").isSome ↔ jsTrim sampleForm.name = "") ∧
    (((validateFormErrors sampleForm).lookup "breed").isSome ↔ jsTrim sampleForm.breed = "") ∧
    (((validateFormErrors sampleForm).lookup "type").isSome ↔ sampleForm.type = "") ∧
    (((validateFormErrors sampleForm).lookup "activityLevel").isSome ↔
      sampleForm.activityLevel = "") ∧
    (((validateFormErrors sampleForm).lookup "age").isSome ↔ sampleForm.age ≤ 0) ∧
    (((validateFormErrors sampleForm).lookup "weight").isSome ↔ sampleForm.weight ≤ 0) ∧
    ((handleSubmit sampleForm "" (Except.ok ())).onSubmitCalled = true ↔
      validateFormErrors sampleForm = []) :=
  C6_validation_characterization sampleForm "" (Except.ok ())

/-- C10: `handleDeleteConfirm` with no selected target returns immediately:
the delete API is not called and the whole page state (pets list, loading
flags, notification) is unchanged. -/
theorem C10_null_target_is_noop (st : PageState) (apiResult : Except JsError Unit) :
    handleDeleteConfirm st none apiResult =
      { state := st, thrown := none, apiCalled := false } ∧
    (handleDeleteConfirm st none apiResult).state.pets = st.pets ∧
    (handleDeleteConfirm st none apiResult).state.deleteLoading = st.deleteLoading ∧
    (handleDeleteConfirm st none apiResult).state.snackbar = st.snackbar :=
  ⟨rfl, rfl, rfl, rfl⟩

theorem C10_witness :
    handleDeleteConfirm initialState none (Except.ok ()) =
      { state := initialState, thrown := none, apiCalled := false } ∧
    (handleDeleteConfirm initialState none (Except.ok ())).state.pets = initialState.pets ∧
    (handleDeleteConfirm initialState none (Except.ok ())).state.deleteLoading =
      initialState.deleteLoading ∧
    (handleDeleteConfirm initialState none (Except.ok ())).state.snackbar =
      initialState.snackbar :=
  C10_null_target_is_noop initialState (Except.ok ())

/-- C2: a create, update or delete whose API call throws leaves the pets
list exactly unchanged, opens an error notification with a non-empty
message, and re-throws the triggering error to the caller. -/
theorem C2_failure_leaves_list_unchanged (st : PageState) (editingPet : Option Pet)
    (fd : PetFormData) (dp : Pet) (e : JsError) :
    ((handleFormSubmit st editingPet fd (Except.error e)).1.pets = st.pets ∧
     (handleFormSubmit st editingPet fd (Except.error e)).1.snackbar.isOpen = true ∧
     (handleFormSubmit st editingPet fd (Except.error e)).1.snackbar.severity = "error" ∧
     (handleFormSubmit st editingPet fd (Except.error e)).1.snackbar.message ≠ "" ∧
     (handleFormSubmit st editingPet fd (Except.error e)).2 = some e) ∧
    ((handleDeleteConfirm st (some dp) (Except.error e)).state.pets = st.pets ∧
     (handleDeleteConfirm st (some dp) (Except.error e)).state.snackbar.isOpen = true ∧
     (handleDeleteConfirm st (some dp) (Except.error e)).state.snackbar.severity = "error" ∧
     (handleDeleteConfirm st (some dp) (Except.error e)).state.snackbar.message ≠ "" ∧
     (handleDeleteConfirm st (some dp) (Except.error e)).thrown = some e) := by
  constructor
  · cases editingPet <;>
      exact ⟨rfl, rfl, rfl, ne_empty_left_append _ _ (by decide), rfl⟩
  · refine ⟨rfl, rfl, rfl, ?_, rfl⟩
    show ("Failed to delete " ++ dp.name ++ ": ") ++ errMessage e "Delete failed" ≠ ""
    exact ne_empty_left_append _ _
      (ne_empty_left_append _ _ (ne_empty_left_append _ _ (by decide)))

theorem C2_witness :
    ((handleFormSubmit initialState none sampleForm (Except.error sampleError)).1.pets =
       initialState.pets ∧
     (handleFormSubmit initialState none sampleForm
        (Except.error sampleError)).1.snackbar.isOpen = true ∧
     (handleFormSubmit initialState none sampleForm
        (Except.error sampleError)).1.snackbar.severity = "error" ∧
     (handleFormSubmit initialState none sampleForm
        (Except.error sampleError)).1.snackbar.message ≠ "" ∧
     (handleFormSubmit initialState none sampleForm (Except.error sampleError)).2 =
       some sampleError) ∧
    ((handleDeleteConfirm initialState (some buddy) (Except.error sampleError)).state.pets =
       initialState.pets ∧
     (handleDeleteConfirm initialState (some buddy)
        (Except.error sampleError)).state.snackbar.isOpen = true ∧
     (handleDeleteConfirm initialState (some buddy)
        (Except.error sampleError)).state.snackbar.severity = "error" ∧
     (handleDeleteConfirm initialState (some buddy)
        (Except.error sampleError)).state.snackbar.message ≠ "" ∧
     (handleDeleteConfirm initialState (some buddy) (Except.error sampleError)).thrown =
       some sampleError) :=
  C2_failure_leaves_list_unchanged initialState none sampleForm buddy sampleError

/-- The API response used in the C3 counterexample: the created record comes
back with an empty `healthIssues`. -/
def createdPetBlank : Pet :=
  { id := "10", name := "Rex", type := "dog", breed := "Lab", age := 2, weight := 20,
    activityLevel := "high", healthIssues := "", imageUrl := "", isDesexed := false,
    healthStatus := "" }

/-- The form data used in the C3 counterexample: health issues "Allergies". -/
def formAllergies : PetFormData :=
  { name := "Rex", type := "dog", breed := "Lab", age := 2, weight := 20,
    activityLevel := "high", healthIssues := "Allergies", imageUrl := "", isDesexed := false }

/-- C3 counterexample: when the API echoes an empty `healthIssues` but the
form supplied "Allergies", the appended record stores `healthIssues =
"Allergies"` (non-empty and not "None") yet `healthStatus = "healthy"`,
because the status is computed from `createdPet.healthIssues`, not from the
merged field the record carries. -/
theorem C3_counterexample :
    (handleFormSubmit initialState none formAllergies (Except.ok createdPetBlank)).1.pets =
      [buildNewPet createdPetBlank formAllergies] ∧
    (buildNewPet createdPetBlank formAllergies).healthIssues = "Allergies" ∧
    (buildNewPet createdPetBlank formAllergies).healthStatus = "healthy" :=
  ⟨rfl, rfl, rfl⟩

/-- C3 (amended): a successful create appends exactly one record, whose
`healthStatus` is "healthy" iff the API-returned `createdPet.healthIssues`
is empty or "None" and "needs-attention" otherwise — the status is derived
from the API response's `healthIssues`, which can differ from the merged
`healthIssues` value stored on the appended record. -/
theorem C3_create_appends_one (st : PageState) (fd : PetFormData) (createdPet : Pet) :
    (handleFormSubmit st none fd (Except.ok createdPet)).1.pets =
      st.pets ++ [buildNewPet createdPet fd] ∧
    ((buildNewPet createdPet fd).healthStatus = "healthy" ↔
      (createdPet.healthIssues = "None" ∨ createdPet.healthIssues = "")) ∧
    ((buildNewPet createdPet fd).healthStatus = "needs-attention" ↔
      ¬(createdPet.healthIssues = "None" ∨ createdPet.healthIssues = "")) ∧
    (handleFormSubmit st none fd (Except.ok createdPet)).2 = none := by
  refine ⟨rfl, ?_, ?_, rfl⟩ <;>
    · simp only [buildNewPet, computeHealthStatus]
      split_ifs with h <;> simp [h]

theorem C3_witness :
    (handleFormSubmit initialState none sampleForm (Except.ok buddy)).1.pets =
      initialState.pets ++ [buildNewPet buddy sampleForm] ∧
    ((buildNewPet buddy sampleForm).healthStatus = "healthy" ↔
      (buddy.healthIssues = "None" ∨ buddy.healthIssues = "")) ∧
    ((buildNewPet buddy sampleForm).healthStatus = "needs-attention" ↔
      ¬(buddy.healthIssues = "None" ∨ buddy.healthIssues = "")) ∧
    (handleFormSubmit initialState none sampleForm (Except.ok buddy)).2 = none :=
  C3_create_appends_one initialState sampleForm buddy

/-- C4: a successful update maps the list so that every position holding the
edited pet's id is replaced by the merged record (whose id is the original
id) and every other position is unchanged; the length is preserved. -/
theorem C4_update_replaces_only_matching (st : PageState) (ep updatedPet : Pet)
    (fd : PetFormData) :
    (handleFormSubmit st (some ep) fd (Except.ok updatedPet)).1.pets.length =
      st.pets.length ∧
    (mergeUpdatedPet ep updatedPet fd).id = ep.id ∧
    (∀ i : Nat, ∀ pet : Pet, st.pets[i]? = some pet →
      (handleFormSubmit st (some ep) fd (Except.ok updatedPet)).1.pets[i]? =
        some (if pet.id = ep.id then mergeUpdatedPet ep updatedPet fd else pet)) := by
  refine ⟨?_, rfl, ?_⟩
  · simp [handleFormSubmit]
  · intro i pet h
    simp [handleFormSubmit, List.getElem?_map, h]

theorem C4_witness :
    (handleFormSubmit (PageState.mk [buddy] false none (Snackbar.mk false "" "success")
        false false) (some buddy) sampleForm (Except.ok buddy)).1.pets[0]? =
      some (mergeUpdatedPet buddy buddy sampleForm) := by
  have h := (C4_update_replaces_only_matching (PageState.mk [buddy] false none
    (Snackbar.mk false "" "success") false false) buddy buddy sampleForm).2.2 0 buddy rfl
  simpa using h

/-- C5: a successful confirmed delete filters the list to the records whose
id differs from the target's: membership is characterized exactly, and the
result is a sublist of the previous list (no reordering or alteration). -/
theorem C5_delete_removes_exactly_matching (st : PageState) (dp : Pet) :
    (handleDeleteConfirm st (some dp) (Except.ok ())).state.pets =
      st.pets.filter (fun pet => pet.id ≠ dp.id) ∧
    (∀ pet : Pet, pet ∈ (handleDeleteConfirm st (some dp) (Except.ok ())).state.pets ↔
      (pet ∈ st.pets ∧ pet.id ≠ dp.id)) ∧
    List.Sublist (handleDeleteConfirm st (some dp) (Except.ok ())).state.pets st.pets ∧
    (handleDeleteConfirm st (some dp) (Except.ok ())).thrown = none := by
  refine ⟨rfl, ?_, ?_, rfl⟩
  · intro pet
    show pet ∈ st.pets.filter (fun pet => pet.id ≠ dp.id) ↔ _
    simp [List.mem_filter]
  · exact List.filter_sublist _

theorem C5_witness :
    (handleDeleteConfirm (PageState.mk mockPets false none (Snackbar.mk false "" "success")
        false false) (some buddy) (Except.ok ())).state.pets =
      mockPets.filter (fun pet => pet.id ≠ buddy.id) :=
  (C5_delete_removes_exactly_matching (PageState.mk mockPets false none
    (Snackbar.mk false "" "success") false false) buddy).1

/-- C7: once validation passes, a resolving `onSubmit` leaves the submit
error cleared and closes the dialog; a throwing `onSubmit` stores the thrown
error's message and does not close the dialog. -/
theorem C7_submit_success_closes_failure_stays (fd : PetFormData)
    (prevSubmitError : String) (e : JsError)
    (hvalid : validateForm fd = true) (he : e.isError = true) :
    (handleSubmit fd prevSubmitError (Except.ok ())).submitError = "" ∧
    (handleSubmit fd prevSubmitError (Except.ok ())).onCloseCalled = true ∧
    (handleSubmit fd prevSubmitError (Except.error e)).submitError = e.message ∧
    (handleSubmit fd prevSubmitError (Except.error e)).onCloseCalled = false := by
  simp [handleSubmit, hvalid, errMessage, he]

theorem C7_witness :
    (handleSubmit sampleForm "old" (Except.ok ())).submitError = "" ∧
    (handleSubmit sampleForm "old" (Except.ok ())).onCloseCalled = true ∧
    (handleSubmit sampleForm "old" (Except.error sampleError)).submitError =
      sampleError.message ∧
    (handleSubmit sampleForm "old" (Except.error sampleError)).onCloseCalled = false :=
  C7_submit_success_closes_failure_stays sampleForm "old" sampleError (by decide) rfl

/-- C8: the delete dialog reaches the delete operation only through the
confirm button; with a resolving operation `onClose` runs, with a throwing
one the dialog stays open (no `onClose`), an error notification with a
non-empty message is surfaced, and the operation re-signals the error. -/
theorem C8_confirm_gates_delete (st : PageState) (dp : Pet) (e : JsError)
    (apiResult : Except JsError Unit) (ev : DialogEvent) :
    ((deleteDialogStep st (some dp) ev apiResult).deleteApiCalled = true ↔
      ev = DialogEvent.confirmClick) ∧
    (deleteDialogStep st (some dp) DialogEvent.confirmClick
      (Except.ok ())).onCloseCalled = true ∧
    (deleteDialogStep st (some dp) DialogEvent.confirmClick
      (Except.error e)).onCloseCalled = false ∧
    (deleteDialogStep st (some dp) DialogEvent.confirmClick
      (Except.error e)).state.snackbar.severity = "error" ∧
    (deleteDialogStep st (some dp) DialogEvent.confirmClick
      (Except.error e)).state.snackbar.message ≠ "" ∧
    (handleDeleteConfirm st (some dp) (Except.error e)).thrown = some e := by
  refine ⟨?_, rfl, rfl, rfl, ?_, rfl⟩
  · cases ev <;> cases apiResult <;>
      simp [deleteDialogStep, handleDeleteConfirm]
  · show ("Failed to delete " ++ dp.name ++ ": ") ++ errMessage e "Delete failed" ≠ ""
    exact ne_empty_left_append _ _
      (ne_empty_left_append _ _ (ne_empty_left_append _ _ (by decide)))

theorem C8_witness :
    ((deleteDialogStep initialState (some buddy) DialogEvent.cancelClick
        (Except.ok ())).deleteApiCalled = true ↔
      DialogEvent.cancelClick = DialogEvent.confirmClick) ∧
    (deleteDialogStep initialState (some buddy) DialogEvent.confirmClick
      (Except.ok ())).onCloseCalled = true ∧
    (deleteDialogStep initialState (some buddy) DialogEvent.confirmClick
      (Except.error sampleError)).onCloseCalled = false ∧
    (deleteDialogStep initialState (some buddy) DialogEvent.confirmClick
      (Except.error sampleError)).state.snackbar.severity = "error" ∧
    (deleteDialogStep initialState (some buddy) DialogEvent.confirmClick
      (Except.error sampleError)).state.snackbar.message ≠ "" ∧
    (handleDeleteConfirm initialState (some buddy) (Except.error sampleError)).thrown =
      some sampleError :=
  C8_confirm_gates_delete initialState buddy sampleError (Except.ok ())
    DialogEvent.cancelClick

/-- C9: when the initial fetch fails, the development configuration installs
the fixed three-record demo data and opens an informational notification,
while any other configuration leaves the pets list as it was and sets a
non-empty user-visible error value instead. -/
theorem C9_fetch_failure_fallback (st : PageState) (e : JsError) :
    (fetchPets st true (Except.error e)).pets = mockPets ∧
    mockPets.length = 3 ∧
    (fetchPets st true (Except.error e)).snackbar =
      { isOpen := true, message := "Using demo data - API not connected",
        severity := "info" } ∧
    (fetchPets st true (Except.error e)).error = none ∧
    (fetchPets st false (Except.error e)).pets = st.pets ∧
    (fetchPets st false (Except.error e)).error =
      some ("Unable to load your pets: " ++ errMessage e "Failed to load pets") ∧
    ("Unable to load your pets: " ++ errMessage e "Failed to load pets") ≠ "" := by
  refine ⟨rfl, rfl, rfl, rfl, rfl, rfl, ?_⟩
  exact ne_empty_left_append _ _ (by decide)

theorem C9_witness :
    (fetchPets initialState true (Except.error sampleError)).pets = mockPets ∧
    mockPets.length = 3 ∧
    (fetchPets initialState true (Except.error sampleError)).snackbar =
      { isOpen := true, message := "Using demo data - API not connected",
        severity := "info" } ∧
    (fetchPets initialState true (Except.error sampleError)).error = none ∧
    (fetchPets initialState false (Except.error sampleError)).pets = initialState.pets ∧
    (fetchPets initialState false (Except.error sampleError)).error =
      some ("Unable to load your pets: " ++ errMessage sampleError "Failed to load pets") ∧
    ("Unable to load your pets: " ++ errMessage sampleError "Failed to load pets") ≠ "" :=
  C9_fetch_failure_fallback initialState sampleError

end PawfectBite
